import Mathlib

/-!
# NexusFetcher API — a shallow embedding of `src/main.py`

This file embeds the batch-scraping pipeline of the repository's single
source file `src/main.py` (a FastAPI service driving a headless Selenium
session) and proves the frozen claims about it.

Modelling conventions:

* The browser/page environment is external and effectful.  We model the
  behaviour the environment presents to `_perform_single_scrape` for one
  identifier as an oracle value of type `SingleOutcome`:
  - `webdriverFault msg` — a `WebDriverException` (or a subclass such as
    `TimeoutException` outside the inner `try`) is raised during the
    interaction sequence; caught at `main.py:128` and re-raised;
  - `otherFault msg` — a non-`WebDriverException` exception is raised
    before any field is extracted; caught at `main.py:131` and swallowed,
    so the defaults are returned;
  - `noResult` — the "SMS result" link does not appear within the wait
    timeout (`TimeoutException`/`NoSuchElementException` inside the inner
    `try`, caught at `main.py:123-126`);
  - `found name phone email` — the results link is followed and each of
    the three detail fields is independently present (`some` of the raw
    element text, which the code strips) or absent (`none`,
    `NoSuchElementException` caught at `main.py:98/104/111`).
* Batch-level effects are collected in a `BatchEnv`: whether WebDriver
  initialization (`main.py:185-189`) fails and how, the per-iteration
  oracle, and whether `driver.quit()` raises.
* An `HTTPException` is modelled as an `HTTPError` value in the `.error`
  branch of `Except`; the `finally` block (`main.py:211-217`) is modelled
  explicitly, and a `BatchTrace` records whether the session was opened,
  how many times `quit` was invoked, and whether a fault escaped the
  `finally` block.
* Python string primitives are modelled structurally on the character
  list `String.data` so that the kernel can evaluate them: `str.strip()`
  becomes `pyStrip` (drop ASCII whitespace on both ends), `len` becomes
  `String.length` (both count characters), `s[3:]` becomes `strDrop s 3`,
  `str.startswith` becomes a take-compare, and `str.isdigit()` becomes
  "nonempty and all characters are ASCII digits".  The claims do not
  depend on exotic Unicode whitespace or digits.
* Filesystem effects of `/scrape_by_file` (temp-file save/cleanup,
  `FileNotFoundError`) are outside the embedding; the uploaded file is
  modelled as its list of lines.
-/

/-- Python `str.strip()`: remove whitespace from both ends. -/
def pyStrip (s : String) : String :=
  ⟨(((s.data.dropWhile Char.isWhitespace).reverse.dropWhile Char.isWhitespace).reverse)⟩

/-- Python `s.startswith(p)`. -/
def pyStartsWith (s p : String) : Bool :=
  s.data.take p.data.length == p.data

/-- Python `s[n:]`. -/
def strDrop (s : String) (n : Nat) : String :=
  ⟨s.data.drop n⟩

/-- Python `str.isdigit()` restricted to ASCII: nonempty and all digits. -/
def isDigitString (s : String) : Bool :=
  !s.data.isEmpty && s.data.all Char.isDigit

/-- The sentinel used for every unextracted field (`main.py:58`). -/
def NA : String := "N/A"

/-- `ScrapeResult` Pydantic model (`main.py:38-42`). -/
structure ScrapeResult where
  number_searched : String
  email : String
  name : String
  phone : String
deriving DecidableEq, Repr

/-- `ScrapeResponse` Pydantic model (`main.py:44-49`). -/
structure ScrapeResponse where
  status : String
  message : String
  results : List ScrapeResult
  total_processed : Nat
  errors : List String
deriving DecidableEq, Repr

/-- `HTTPException(status_code, detail)` as raised by the endpoints. -/
structure HTTPError where
  status_code : Nat
  detail : String
deriving DecidableEq, Repr

/-- Oracle describing what the browser/page environment does while
`_perform_single_scrape` processes one identifier (see the header). -/
inductive SingleOutcome where
  | webdriverFault (msg : String)
  | otherFault (msg : String)
  | noResult
  | found (name phone email : Option String)
deriving DecidableEq, Repr

/-- `_perform_single_scrape` (`main.py:52-134`): returns the triple
`(email, name, phone)` (`main.py:134`), each field independently
defaulted to `"N/A"` and stripped when extracted (`main.py:96-112`); a
`WebDriverException` is re-raised (`main.py:128-130`, the `.error`
branch), any other exception is swallowed and the defaults returned
(`main.py:131-132`). -/
def _perform_single_scrape : SingleOutcome → Except String (String × String × String)
  | .webdriverFault msg => .error msg
  | .otherFault _ => .ok (NA, NA, NA)
  | .noResult => .ok (NA, NA, NA)
  | .found name phone email =>
      .ok ((email.map pyStrip).getD NA,
           (name.map pyStrip).getD NA,
           (phone.map pyStrip).getD NA)

/-- The per-line acceptance function of `_read_numbers_from_file_api`
(`main.py:141-149`): `none` when the line is dropped (blank or
malformed), `some n` when identifier `n` is appended. -/
def lineOutput (line : String) : Option String :=
  let stripped_line := pyStrip line
  if stripped_line.data.isEmpty then none
  else if pyStartsWith stripped_line "234" ∧ 10 ≤ stripped_line.length then
    some (strDrop stripped_line 3)
  else if isDigitString stripped_line then some stripped_line
  else none

/-- The note recorded for a malformed line, `none` otherwise
(`main.py:148-149`). -/
def lineSkipNote (line : String) : Option String :=
  let stripped_line := pyStrip line
  if stripped_line.data.isEmpty then none
  else if pyStartsWith stripped_line "234" ∧ 10 ≤ stripped_line.length then none
  else if isDigitString stripped_line then none
  else some ("Skipping malformed line in file: '" ++ stripped_line ++ "'")

/-- The loop of `_read_numbers_from_file_api` (`main.py:141-149`) with its
two accumulators: the `numbers` list and the `logs` notes for skipped
malformed lines. -/
def readLinesLoop : List String → List String → List String → List String × List String
  | [], numbers, logs => (numbers, logs)
  | line :: rest, numbers, logs =>
      let stripped_line := pyStrip line
      if stripped_line.data.isEmpty then readLinesLoop rest numbers logs
      else if pyStartsWith stripped_line "234" ∧ 10 ≤ stripped_line.length then
        readLinesLoop rest (numbers ++ [strDrop stripped_line 3]) logs
      else if isDigitString stripped_line then
        readLinesLoop rest (numbers ++ [stripped_line]) logs
      else
        readLinesLoop rest numbers
          (logs ++ ["Skipping malformed line in file: '" ++ stripped_line ++ "'"])

/-- `_read_numbers_from_file_api` (`main.py:136-152`) on the file's lines:
returns the accepted identifiers and the skipped-malformed-line notes. -/
def _read_numbers_from_file_api (lines : List String) : List String × List String :=
  readLinesLoop lines [] []

/-- How WebDriver initialization (`main.py:184-190`) fails, when it does:
a `WebDriverException` (caught at `main.py:203`) or any other exception
(caught at `main.py:207`). -/
inductive InitFault where
  | webdriver (msg : String)
  | other (msg : String)
deriving DecidableEq, Repr

/-- The effectful environment of one batch request: whether session
initialization fails, the oracle for the `i`-th loop iteration, and
whether `driver.quit()` raises a `WebDriverException`. -/
structure BatchEnv where
  initFault : Option InitFault
  outcomes : Nat → SingleOutcome
  quitRaises : Bool

/-- Session-lifecycle trace of one batch: whether a browser session was
opened, how many times `driver.quit()` was invoked, and whether a fault
escaped the `finally` block. -/
structure BatchTrace where
  opened : Bool
  quitCalls : Nat
  quitFaultPropagated : Bool
deriving DecidableEq, Repr

/-- `driver.quit()` under the `try/except` of `main.py:213-217`: the call
happens (count `1`) and a `WebDriverException` raised by it is caught and
only logged, never propagated. -/
def quitDriver (quitRaises : Bool) : Nat × Bool :=
  if quitRaises then (1, false) else (1, false)

/-- The `finally` block (`main.py:211-217`): `quit` runs iff `driver` was
set (`if driver:`). -/
def finallyBlock (opened : Bool) (quitRaises : Bool) : Nat × Bool :=
  if opened then quitDriver quitRaises else (0, false)

/-- The per-identifier loop (`main.py:192-201`): `i` is the index of the
current iteration (feeding the oracle), and `results`, `errors`,
`processed_count` are the loop's accumulators.  A fault escaping
`_perform_single_scrape` is caught by `except Exception`
(`main.py:197-201`): one error entry is appended, the all-default result
is appended, and the loop continues. -/
def scrapeLoop (outcomes : Nat → SingleOutcome) :
    List String → Nat → List ScrapeResult → List String → Nat →
      List ScrapeResult × List String × Nat
  | [], _, results, errors, processed_count => (results, errors, processed_count)
  | number :: rest, i, results, errors, processed_count =>
      match _perform_single_scrape (outcomes i) with
      | .ok (email, name, phone) =>
          scrapeLoop outcomes rest (i + 1)
            (results ++ [⟨number, email, name, phone⟩]) errors (processed_count + 1)
      | .error e =>
          scrapeLoop outcomes rest (i + 1)
            (results ++ [⟨number, NA, NA, NA⟩])
            (errors ++ ["Failed to process number " ++ number ++ ": " ++ e])
            (processed_count + 1)

/-- The result record the loop appends for `number` under outcome `o`. -/
def stepResult (number : String) (o : SingleOutcome) : ScrapeResult :=
  match _perform_single_scrape o with
  | .ok (email, name, phone) => ⟨number, email, name, phone⟩
  | .error _ => ⟨number, NA, NA, NA⟩

/-- The error entry (if any) the loop appends for `number` under outcome
`o`: exactly one entry when a fault escapes `_perform_single_scrape`,
none otherwise. -/
def stepError (number : String) (o : SingleOutcome) : Option String :=
  match _perform_single_scrape o with
  | .ok _ => none
  | .error e => some ("Failed to process number " ++ number ++ ": " ++ e)

/-- The results list of a whole successful batch over `numbers`. -/
def batchResults (env : BatchEnv) (numbers : List String) : List ScrapeResult :=
  (numbers.enum).map fun p => stepResult p.2 (env.outcomes p.1)

/-- The errors list of a whole successful batch over `numbers`. -/
def batchErrors (env : BatchEnv) (numbers : List String) : List String :=
  (numbers.enum).filterMap fun p => stepError p.2 (env.outcomes p.1)

/-- The `try/except/finally` body shared verbatim by both endpoints
(`main.py:182-225` and `main.py:254-308`): initialize the WebDriver
(fatal failure raises `HTTPException(500, ...)` and, since `driver` is
still `None`, skips `quit`), run the loop, run the `finally` block, and
build the `ScrapeResponse` (`main.py:219-225`). -/
def runBatch (env : BatchEnv) (numbers : List String) :
    Except HTTPError ScrapeResponse × BatchTrace :=
  match env.initFault with
  | some (.webdriver msg) =>
      let q := finallyBlock false env.quitRaises
      (.error ⟨500, "Critical WebDriver error during initialization or execution: " ++ msg ++
          ". Ensure Firefox and GeckoDriver are correctly set up on the server."⟩,
       ⟨false, q.1, q.2⟩)
  | some (.other msg) =>
      let q := finallyBlock false env.quitRaises
      (.error ⟨500, "An unexpected server error occurred: " ++ msg⟩, ⟨false, q.1, q.2⟩)
  | none =>
      let r := scrapeLoop env.outcomes numbers 0 [] [] 0
      let q := finallyBlock true env.quitRaises
      (.ok ⟨if r.2.1.isEmpty then "success" else "completed_with_errors",
            if r.2.1.isEmpty then "Scraping completed."
            else "Scraping completed with some errors. Check 'errors' list.",
            r.1, r.2.2, r.2.1⟩,
       ⟨true, q.1, q.2⟩)

/-- Endpoint `/scrape_by_numbers` (`main.py:166-225`): rejects an empty
identifier list with `HTTPException(400, ...)` before any session is
opened, otherwise runs the batch body. -/
def scrape_by_numbers (env : BatchEnv) (request_numbers : List String) :
    Except HTTPError ScrapeResponse × BatchTrace :=
  if request_numbers.isEmpty then
    (.error ⟨400, "No numbers provided for scraping."⟩, ⟨false, 0, false⟩)
  else runBatch env request_numbers

/-- Endpoint `/scrape_by_file` (`main.py:227-308`), with the uploaded
file modelled as its list of lines: parses the lines, rejects an empty
identifier list with `HTTPException(400, ...)` before any session is
opened, otherwise runs the same batch body. -/
def scrape_by_file (env : BatchEnv) (fileLines : List String) :
    Except HTTPError ScrapeResponse × BatchTrace :=
  let numbers_to_scrape := (_read_numbers_from_file_api fileLines).1
  if numbers_to_scrape.isEmpty then
    (.error ⟨400, "No valid numbers found in the uploaded file."⟩, ⟨false, 0, false⟩)
  else runBatch env numbers_to_scrape

/-- A batch whose every identifier hits the "no match" timeout. -/
def sampleEnvOK : BatchEnv := ⟨none, fun _ => .noResult, false⟩

/-- A batch whose every identifier raises a `WebDriverException`. -/
def sampleEnvWD : BatchEnv := ⟨none, fun _ => .webdriverFault "boom", false⟩

/-- A batch whose every identifier raises a non-WebDriver exception
before extraction (swallowed at `main.py:131`). -/
def sampleEnvOther : BatchEnv := ⟨none, fun _ => .otherFault "boom", false⟩

/-- A batch whose WebDriver initialization fails fatally. -/
def sampleEnvInitFail : BatchEnv := ⟨some (.webdriver "no geckodriver"), fun _ => .noResult, false⟩

/-- A batch whose identifiers find a partial record (name and email
present, phone absent) and whose `driver.quit()` raises. -/
def sampleEnvFound : BatchEnv :=
  ⟨none, fun _ => .found (some " ACME CORP ") none (some "a@b.c"), true⟩

/-- The response of `sampleEnvOK` on `["100"]`. -/
def sampleRespOK1 : ScrapeResponse :=
  ⟨"success", "Scraping completed.", [⟨"100", NA, NA, NA⟩], 1, []⟩

/-- The response of `sampleEnvOK` on `["100", "200"]`. -/
def sampleRespOK2 : ScrapeResponse :=
  ⟨"success", "Scraping completed.",
   [⟨"100", NA, NA, NA⟩, ⟨"200", NA, NA, NA⟩], 2, []⟩

/-- The response of `sampleEnvWD` on `["100"]`. -/
def sampleRespWD1 : ScrapeResponse :=
  ⟨"completed_with_errors",
   "Scraping completed with some errors. Check 'errors' list.",
   [⟨"100", NA, NA, NA⟩], 1, ["Failed to process number 100: boom"]⟩

/-- The response of `sampleEnvWD` on `["100", "200"]`. -/
def sampleRespWD2 : ScrapeResponse :=
  ⟨"completed_with_errors",
   "Scraping completed with some errors. Check 'errors' list.",
   [⟨"100", NA, NA, NA⟩, ⟨"200", NA, NA, NA⟩], 2,
   ["Failed to process number 100: boom", "Failed to process number 200: boom"]⟩

/-- The response of `sampleEnvFound` on `["100"]`. -/
def sampleRespFound1 : ScrapeResponse :=
  ⟨"success", "Scraping completed.",
   [⟨"100", "a@b.c", "ACME CORP", NA⟩], 1, []⟩

/-! ## Characterization lemmas -/

theorem enumFrom_map_snd_eq {α : Type} (ns : List α) :
    ∀ i : Nat, (List.enumFrom i ns).map Prod.snd = ns := by
  induction ns with
  | nil => intro i; rfl
  | cons n rest ih => intro i; simp [List.enumFrom, ih]

theorem stepResult_number (n : String) (o : SingleOutcome) :
    (stepResult n o).number_searched = n := by
  unfold stepResult
  rcases h : _perform_single_scrape o with e | ⟨a, b, c⟩ <;> simp

theorem readLinesLoop_spec (lines : List String) :
    ∀ (numbers logs : List String),
      readLinesLoop lines numbers logs =
        (numbers ++ lines.filterMap lineOutput, logs ++ lines.filterMap lineSkipNote) := by
  induction lines with
  | nil => intro numbers logs; simp [readLinesLoop]
  | cons line rest ih =>
      intro numbers logs
      by_cases h1 : (pyStrip line).data.isEmpty
      · simp [readLinesLoop, lineOutput, lineSkipNote, h1, ih]
      · by_cases h2 : pyStartsWith (pyStrip line) "234" ∧ 10 ≤ (pyStrip line).length
        · simp [readLinesLoop, lineOutput, lineSkipNote, h1, h2, ih]
        · by_cases h3 : isDigitString (pyStrip line)
          · simp [readLinesLoop, lineOutput, lineSkipNote, h1, h2, h3, ih]
          · simp [readLinesLoop, lineOutput, lineSkipNote, h1, h2, h3, ih]

theorem read_numbers_spec (lines : List String) :
    _read_numbers_from_file_api lines =
      (lines.filterMap lineOutput, lines.filterMap lineSkipNote) := by
  simpa using readLinesLoop_spec lines [] []

theorem scrapeLoop_spec (outcomes : Nat → SingleOutcome) (ns : List String) :
    ∀ (i : Nat) (results : List ScrapeResult) (errors : List String)
      (processed_count : Nat),
      scrapeLoop outcomes ns i results errors processed_count =
        (results ++ (List.enumFrom i ns).map (fun p => stepResult p.2 (outcomes p.1)),
         errors ++ (List.enumFrom i ns).filterMap (fun p => stepError p.2 (outcomes p.1)),
         processed_count + ns.length) := by
  induction ns with
  | nil => intro i results errors c; simp [scrapeLoop, List.enumFrom]
  | cons n rest ih =>
      intro i results errors c
      rcases h : _perform_single_scrape (outcomes i) with e | ⟨email, name, phone⟩ <;>
        simp [scrapeLoop, h, ih, List.enumFrom, stepResult, stepError] <;>
        omega

theorem runBatch_ok (env : BatchEnv) (numbers : List String)
    (h : env.initFault = none) :
    runBatch env numbers =
      (.ok ⟨if (batchErrors env numbers).isEmpty then "success" else "completed_with_errors",
            if (batchErrors env numbers).isEmpty then "Scraping completed."
            else "Scraping completed with some errors. Check 'errors' list.",
            batchResults env numbers, numbers.length, batchErrors env numbers⟩,
       ⟨true, 1, false⟩) := by
  unfold runBatch
  rw [h]
  simp only [scrapeLoop_spec, List.nil_append]
  simp [batchResults, batchErrors, List.enum, finallyBlock, quitDriver]

/-- Inversion: a `.ok` response from `/scrape_by_numbers` forces a
nonempty list and successful initialization, and pins down every field
of the response. -/
theorem scrape_by_numbers_ok_inv (env : BatchEnv) (numbers : List String)
    (resp : ScrapeResponse)
    (h : (scrape_by_numbers env numbers).1 = .ok resp) :
    env.initFault = none ∧ numbers ≠ [] ∧
      resp.results = batchResults env numbers ∧
      resp.errors = batchErrors env numbers ∧
      resp.total_processed = numbers.length := by
  unfold scrape_by_numbers at h
  by_cases hne : numbers.isEmpty
  · simp [hne] at h
  · rcases hf : env.initFault with _ | f
    · rw [runBatch_ok env numbers hf] at h
      simp [hne] at h
      simp only [List.isEmpty_iff] at hne
      exact ⟨rfl, hne, by simp [← h], by simp [← h], by simp [← h]⟩
    · rcases f with msg | msg <;> simp [hne, runBatch, hf] at h

theorem batchResults_length (env : BatchEnv) (ns : List String) :
    (batchResults env ns).length = ns.length := by
  simp [batchResults, List.enum_length]

theorem batchResults_map_number (env : BatchEnv) (ns : List String) :
    (batchResults env ns).map ScrapeResult.number_searched = ns := by
  unfold batchResults
  rw [List.map_map]
  have hc : (ScrapeResult.number_searched ∘ fun p : Nat × String => stepResult p.2 (env.outcomes p.1))
      = Prod.snd := funext fun p => stepResult_number p.2 (env.outcomes p.1)
  rw [hc, List.enum, enumFrom_map_snd_eq]

theorem getElem?_enumFrom_eq {α : Type} (ns : List α) :
    ∀ (i j : Nat), (List.enumFrom i ns)[j]? = ns[j]?.map fun a => (i + j, a) := by
  induction ns with
  | nil => intro i j; simp [List.enumFrom]
  | cons n rest ih =>
      intro i j
      cases j with
      | zero => simp [List.enumFrom]
      | succ j =>
          simp only [List.enumFrom, List.getElem?_cons_succ]
          rw [ih (i + 1) j]
          have hadd : i + 1 + j = i + (j + 1) := by omega
          rw [hadd]

theorem batchResults_getElem? (env : BatchEnv) (ns : List String) (i : Nat) (n : String)
    (h : ns[i]? = some n) :
    (batchResults env ns)[i]? = some (stepResult n (env.outcomes i)) := by
  unfold batchResults
  rw [List.getElem?_map, List.enum, getElem?_enumFrom_eq ns 0 i, h]
  simp

/-! ## Claims -/

/-- C1: for every identifier list accepted by `/scrape_by_numbers` that
returns a response, the results list contains exactly one record per
input identifier, in input order, and `total_processed` equals the input
count (failed identifiers included). -/
theorem C1_one_result_per_identifier_in_order
    (env : BatchEnv) (numbers : List String) (resp : ScrapeResponse)
    (h : (scrape_by_numbers env numbers).1 = .ok resp) :
    resp.results.length = numbers.length ∧
    resp.results.map ScrapeResult.number_searched = numbers ∧
    resp.total_processed = numbers.length := by
  obtain ⟨-, -, hres, -, htot⟩ := scrape_by_numbers_ok_inv env numbers resp h
  exact ⟨by rw [hres, batchResults_length], by rw [hres, batchResults_map_number], htot⟩

/-- C1 witness: a concrete two-identifier batch. -/
theorem C1_witness :
    sampleRespOK2.results.length = ["100", "200"].length ∧
    sampleRespOK2.results.map ScrapeResult.number_searched = ["100", "200"] ∧
    sampleRespOK2.total_processed = ["100", "200"].length :=
  C1_one_result_per_identifier_in_order sampleEnvOK ["100", "200"] sampleRespOK2 rfl

/-- C2 counterexample: a non-WebDriver fault raised while processing the
only identifier (oracle `otherFault`, caught and swallowed at
`main.py:131`) leaves the batch error list empty, refuting the claim
that any fault is "recorded as exactly one entry in the batch's error
list". -/
theorem C2_counterexample :
    _perform_single_scrape (.otherFault "boom") = .ok (NA, NA, NA) ∧
    (scrape_by_numbers sampleEnvOther ["100"]).1 =
      .ok ⟨"success", "Scraping completed.", [⟨"100", NA, NA, NA⟩], 1, []⟩ :=
  ⟨rfl, rfl⟩

/-- C2 (amended): a WebDriver fault escaping the single-identifier scrape
is caught by the batch loop, recorded as exactly one error entry, the
identifier's result is the all-default record, and processing continues;
a non-WebDriver fault inside the scrape routine is caught there and
swallowed — the result is still the all-default record and processing
continues, but no batch error entry is recorded. -/
theorem C2_amended_per_identifier_faults
    (env : BatchEnv) (numbers : List String) (resp : ScrapeResponse)
    (i : Nat) (n msg : String)
    (h : (scrape_by_numbers env numbers).1 = .ok resp)
    (hn : numbers[i]? = some n) :
    resp.results.length = numbers.length ∧
    resp.errors = batchErrors env numbers ∧
    (env.outcomes i = .webdriverFault msg →
      resp.results[i]? = some ⟨n, NA, NA, NA⟩ ∧
      stepError n (.webdriverFault msg) =
        some ("Failed to process number " ++ n ++ ": " ++ msg)) ∧
    (env.outcomes i = .otherFault msg →
      resp.results[i]? = some ⟨n, NA, NA, NA⟩ ∧
      stepError n (.otherFault msg) = none) := by
  obtain ⟨-, -, hres, herr, -⟩ := scrape_by_numbers_ok_inv env numbers resp h
  refine ⟨by rw [hres, batchResults_length], herr, ?_, ?_⟩
  · intro ho
    rw [hres, batchResults_getElem? env numbers i n hn, ho]
    exact ⟨rfl, rfl⟩
  · intro ho
    rw [hres, batchResults_getElem? env numbers i n hn, ho]
    exact ⟨rfl, rfl⟩

/-- C2 witness: a concrete one-identifier batch with a WebDriver fault. -/
theorem C2_witness :
    sampleRespWD1.results.length = ["100"].length ∧
    sampleRespWD1.errors = batchErrors sampleEnvWD ["100"] ∧
    (sampleEnvWD.outcomes 0 = .webdriverFault "boom" →
      sampleRespWD1.results[0]? = some ⟨"100", NA, NA, NA⟩ ∧
      stepError "100" (.webdriverFault "boom") =
        some ("Failed to process number " ++ "100" ++ ": " ++ "boom")) ∧
    (sampleEnvWD.outcomes 0 = .otherFault "boom" →
      sampleRespWD1.results[0]? = some ⟨"100", NA, NA, NA⟩ ∧
      stepError "100" (.otherFault "boom") = none) :=
  C2_amended_per_identifier_faults sampleEnvWD ["100"] sampleRespWD1 0 "100" "boom" rfl rfl

/-- C3: the identifier-list parser trims each raw line, skips blank
lines, strips the `"234"` prefix from lines of length at least 10 that
start with it, accepts purely numeric lines unchanged, records a
skipped-malformed-line note for every other line, and produces exactly
the order- and duplicate-preserving per-line `filterMap` of the input
(see `lineOutput` and `lineSkipNote` for the per-line rule). -/
theorem C3_parser_per_line (lines : List String) :
    (_read_numbers_from_file_api lines).1 = lines.filterMap lineOutput ∧
    (_read_numbers_from_file_api lines).2 = lines.filterMap lineSkipNote := by
  rw [read_numbers_spec]
  exact ⟨rfl, rfl⟩

/-- C4: an identifier whose extraction raises a transport/session-level
(WebDriver) fault yields the all-default record at its position plus
exactly one corresponding error entry (`stepError` is `some` there and
the errors list is the per-identifier `filterMap`), and every other
identifier in the list is still processed (one record per input, in
order). -/
theorem C4_transport_fault_isolated
    (env : BatchEnv) (numbers : List String) (resp : ScrapeResponse)
    (i : Nat) (n msg : String)
    (h : (scrape_by_numbers env numbers).1 = .ok resp)
    (hn : numbers[i]? = some n)
    (ho : env.outcomes i = .webdriverFault msg) :
    resp.results[i]? = some ⟨n, NA, NA, NA⟩ ∧
    resp.results.length = numbers.length ∧
    resp.results.map ScrapeResult.number_searched = numbers ∧
    resp.errors = batchErrors env numbers ∧
    stepError n (env.outcomes i) =
      some ("Failed to process number " ++ n ++ ": " ++ msg) := by
  obtain ⟨-, -, hres, herr, -⟩ := scrape_by_numbers_ok_inv env numbers resp h
  refine ⟨?_, by rw [hres, batchResults_length],
    by rw [hres, batchResults_map_number], herr, ?_⟩
  · rw [hres, batchResults_getElem? env numbers i n hn, ho]; rfl
  · rw [ho]; rfl

/-- C4 witness: a concrete two-identifier batch whose first identifier
hits a WebDriver fault; the second is still processed. -/
theorem C4_witness :
    sampleRespWD2.results[0]? = some ⟨"100", NA, NA, NA⟩ ∧
    sampleRespWD2.results.length = ["100", "200"].length ∧
    sampleRespWD2.results.map ScrapeResult.number_searched = ["100", "200"] ∧
    sampleRespWD2.errors = batchErrors sampleEnvWD ["100", "200"] ∧
    stepError "100" (sampleEnvWD.outcomes 0) =
      some ("Failed to process number " ++ "100" ++ ": " ++ "boom") :=
  C4_transport_fault_isolated sampleEnvWD ["100", "200"] sampleRespWD2 0 "100" "boom"
    rfl rfl rfl

/-- C5: a fatal session-initialization failure aborts the batch with a
single top-level 500 error; the trace shows the session was never
opened, and the `.error` result carries no records and no per-identifier
error entries. -/
theorem C5_fatal_init_aborts
    (env : BatchEnv) (numbers : List String) (fault : InitFault)
    (hne : numbers ≠ []) (hf : env.initFault = some fault) :
    ∃ e : HTTPError, scrape_by_numbers env numbers = (.error e, ⟨false, 0, false⟩) ∧
      e.status_code = 500 := by
  unfold scrape_by_numbers
  rw [if_neg (by simpa [List.isEmpty_iff] using hne)]
  unfold runBatch
  rw [hf]
  cases fault with
  | webdriver msg => exact ⟨_, rfl, rfl⟩
  | other msg => exact ⟨_, rfl, rfl⟩

/-- C5 witness: a concrete batch whose WebDriver initialization fails. -/
theorem C5_witness :
    ∃ e : HTTPError, scrape_by_numbers sampleEnvInitFail ["100"] =
      (.error e, ⟨false, 0, false⟩) ∧ e.status_code = 500 :=
  C5_fatal_init_aborts sampleEnvInitFail ["100"] (.webdriver "no geckodriver")
    (by decide) rfl

/-- C6: an identifier for which the results indicator does not appear
within the wait timeout yields the all-default record at its position
and contributes no entry to the batch error list. -/
theorem C6_no_match_defaults_no_error
    (env : BatchEnv) (numbers : List String) (resp : ScrapeResponse)
    (i : Nat) (n : String)
    (h : (scrape_by_numbers env numbers).1 = .ok resp)
    (hn : numbers[i]? = some n)
    (ho : env.outcomes i = .noResult) :
    resp.results[i]? = some ⟨n, NA, NA, NA⟩ ∧
    resp.errors = batchErrors env numbers ∧
    stepError n (env.outcomes i) = none := by
  obtain ⟨-, -, hres, herr, -⟩ := scrape_by_numbers_ok_inv env numbers resp h
  refine ⟨?_, herr, ?_⟩
  · rw [hres, batchResults_getElem? env numbers i n hn, ho]; rfl
  · rw [ho]; rfl

/-- C6 witness: a concrete one-identifier batch with a "no match"
timeout. -/
theorem C6_witness :
    sampleRespOK1.results[0]? = some ⟨"100", NA, NA, NA⟩ ∧
    sampleRespOK1.errors = batchErrors sampleEnvOK ["100"] ∧
    stepError "100" (sampleEnvOK.outcomes 0) = none :=
  C6_no_match_defaults_no_error sampleEnvOK ["100"] sampleRespOK1 0 "100" rfl rfl rfl

/-- C7: when the results link exists, each of the three detail fields is
independently either its stripped extracted value or the `"N/A"`
default, and no entry is added to the batch error list. -/
theorem C7_partial_fields_independent
    (env : BatchEnv) (numbers : List String) (resp : ScrapeResponse)
    (i : Nat) (n : String) (name phone email : Option String)
    (h : (scrape_by_numbers env numbers).1 = .ok resp)
    (hn : numbers[i]? = some n)
    (ho : env.outcomes i = .found name phone email) :
    resp.results[i]? = some ⟨n, (email.map pyStrip).getD NA,
      (name.map pyStrip).getD NA, (phone.map pyStrip).getD NA⟩ ∧
    resp.errors = batchErrors env numbers ∧
    stepError n (env.outcomes i) = none := by
  obtain ⟨-, -, hres, herr, -⟩ := scrape_by_numbers_ok_inv env numbers resp h
  refine ⟨?_, herr, ?_⟩
  · rw [hres, batchResults_getElem? env numbers i n hn, ho]; rfl
  · rw [ho]; rfl

/-- C7 witness: name and email present (name needs stripping), phone
absent and defaulted. -/
theorem C7_witness :
    sampleRespFound1.results[0]? = some ⟨"100", "a@b.c", "ACME CORP", NA⟩ ∧
    sampleRespFound1.errors = batchErrors sampleEnvFound ["100"] ∧
    stepError "100" (sampleEnvFound.outcomes 0) = none :=
  C7_partial_fields_independent sampleEnvFound ["100"] sampleRespFound1 0 "100"
    (some " ACME CORP ") none (some "a@b.c") rfl rfl rfl

/-- C8: on every exit path, the session-lifecycle trace of
`/scrape_by_numbers` shows `quit` invoked exactly once when the session
was opened — with any fault raised while closing swallowed — and never
invoked when opening did not happen. -/
theorem C8_session_closed_exactly_once
    (env : BatchEnv) (numbers : List String) :
    ((scrape_by_numbers env numbers).2.opened = true →
      (scrape_by_numbers env numbers).2.quitCalls = 1 ∧
      (scrape_by_numbers env numbers).2.quitFaultPropagated = false) ∧
    ((scrape_by_numbers env numbers).2.opened = false →
      (scrape_by_numbers env numbers).2.quitCalls = 0) := by
  rcases hf : env.initFault with _ | f
  · by_cases hne : numbers.isEmpty
    · simp [scrape_by_numbers, hne]
    · simp [scrape_by_numbers, hne, runBatch_ok env numbers hf]
  · rcases f with msg | msg <;> by_cases hne : numbers.isEmpty <;>
      simp [scrape_by_numbers, runBatch, hne, hf, finallyBlock, quitDriver]

/-- C8 witness: a batch whose `driver.quit()` raises; the fault is
swallowed and `quit` still runs exactly once. -/
theorem C8_witness :
    (scrape_by_numbers sampleEnvFound ["100"]).2.quitCalls = 1 ∧
    (scrape_by_numbers sampleEnvFound ["100"]).2.quitFaultPropagated = false :=
  (C8_session_closed_exactly_once sampleEnvFound ["100"]).1 rfl

/-- C9: the parser guarantees no numeric output: the 10-character line
`"234abcdefg"` is accepted with its non-numeric remainder `"abcdefg"`,
and the short all-digit line `"2345678"` (which starts with `"234"`) is
accepted without stripping the prefix. -/
theorem C9_parser_no_numeric_guarantee :
    (_read_numbers_from_file_api ["234abcdefg"]).1 = ["abcdefg"] ∧
    isDigitString "abcdefg" = false ∧
    pyStartsWith "234abcdefg" "234" = true ∧
    ("234abcdefg" : String).length = 10 ∧
    (_read_numbers_from_file_api ["2345678"]).1 = ["2345678"] ∧
    isDigitString "2345678" = true ∧
    pyStartsWith "2345678" "234" = true ∧
    ("2345678" : String).length < 10 := by
  decide

/-- C10: an empty direct identifier list, or a file whose lines parse to
no valid identifier, is rejected with HTTP 400 before any session is
opened (trace: not opened, zero `quit` calls) and with no response
records. -/
theorem C10_empty_rejected_before_session
    (env : BatchEnv) (lines : List String) :
    scrape_by_numbers env [] =
      (.error ⟨400, "No numbers provided for scraping."⟩, ⟨false, 0, false⟩) ∧
    ((_read_numbers_from_file_api lines).1 = [] →
      scrape_by_file env lines =
        (.error ⟨400, "No valid numbers found in the uploaded file."⟩,
         ⟨false, 0, false⟩)) := by
  refine ⟨rfl, fun h => ?_⟩
  simp [scrape_by_file, h]

/-- C10 witness: the empty list and a file with one malformed line. -/
theorem C10_witness :
    scrape_by_numbers sampleEnvOK [] =
      (.error ⟨400, "No numbers provided for scraping."⟩, ⟨false, 0, false⟩) ∧
    scrape_by_file sampleEnvOK ["bad-line"] =
      (.error ⟨400, "No valid numbers found in the uploaded file."⟩,
       ⟨false, 0, false⟩) :=
  ⟨(C10_empty_rejected_before_session sampleEnvOK ["bad-line"]).1,
   (C10_empty_rejected_before_session sampleEnvOK ["bad-line"]).2 (by decide)⟩
